import Mathlib

/-!
Verification of the date-planner agent pipeline (Planner → Executor → Verifier).

This file is a shallow embedding of the Python sources:
  * `utils/schemas.py`   — the pydantic data model,
  * `utils/helpers.py`   — `generate_safety_checklist`, `extract_city_coordinates`,
  * `agents/executor.py` — `ExecutorAgent.execute` / `_execute_step` and its handlers,
  * `agents/verifier.py` — `VerifierAgent.verify` and its validation helpers,
  * `agents/planner_gemini.py` — `PlannerAgent.plan` and `_create_fallback_plan`.

Modelling conventions:
  * Python floats are modelled as `ℚ` (all constants in the source are exact
    decimals, so rational arithmetic is the intended semantics).
  * Python `None` / optional values are `Option`; Python truthiness of an
    optional string/number is spelled out explicitly (`none`, `some ""` and
    `some 0` are falsy).
  * Code that can raise (`int(...)` parsing inside
    `generate_safety_checklist`, hence `VerifierAgent._compose_final_plan`
    and `VerifierAgent.verify`) is modelled with `Except String`.
  * External effects are abstracted: the three provider clients are a record
    of functions (`ProviderEnv`) whose calls return `Except String` (an
    exception or a value), wall-clock time and `datetime.now` timestamps are
    parameters or omitted (`timestamp`, `created_at`, `verified_at` fields
    carry no logic), and the LLM call of the Planner is a parameter of type
    `Except String LLMPlan` capturing the whole
    call-then-parse-then-validate block of `PlannerAgent.plan`.
  * Dict-shaped step payloads are modelled as a tagged union `StepPayload`;
    pydantic validation of raw entries (`VenueResult(**v)` etc.) is carried
    as an `Except String` tag on each entry, so that the verifier's
    fault-tolerant extraction loops can be modelled faithfully.
-/

namespace DatePlanner

/-! ## Data model (`utils/schemas.py`) -/

/-- `Literal["success", "failed", "partial"]` of `ExecutorStepResult.status`.
The `partial` literal is rendered as `partialResult`. -/
inductive StepStatus where
  | success
  | failed
  | partialResult
deriving DecidableEq

/-- `Literal["success", "partial_success", "failed"]` of
`ExecutorOutput.overall_status`. -/
inductive OverallStatus where
  | success
  | partialSuccess
  | failed
deriving DecidableEq

/-- `Literal["critical", "warning", "info"]` of `ValidationIssue.severity`. -/
inductive Severity where
  | critical
  | warning
  | info
deriving DecidableEq

/-- `schemas.VenueResult`. -/
structure VenueResult where
  name : String
  address : String
  rating : Option ℚ := none
  price_level : Option Int := none
  open_now : Option Bool := none
  opening_hours : Option (List String) := none
  phone : Option String := none
  website : Option String := none
  google_maps_url : Option String := none
  photos : List String := []
  cuisine_type : Option String := none
  wheelchair_accessible : Option Bool := none
deriving DecidableEq

/-- `schemas.WeatherResult`. -/
structure WeatherResult where
  temperature : ℚ
  feels_like : ℚ
  condition : String
  description : String
  humidity : Int
  wind_speed : ℚ
  rain_probability : Option ℚ := none
  suggestion : String
deriving DecidableEq

/-- `schemas.EventResult`. -/
structure EventResult where
  name : String
  description : Option String := none
  start_time : String
  end_time : Option String := none
  venue : String
  ticket_url : Option String := none
  price : Option String := none
  category : Option String := none
deriving DecidableEq

/-- `schemas.ImageResult`. -/
structure ImageResult where
  url : String
  photographer : String
  description : Option String := none
deriving DecidableEq

/-- The parameter dict of a plan step.  `params` is a `Dict[str, Any]` in the
source; it is modelled as a record of every key the system reads, each
optional (`none` = key absent).  `.get(k, d)` becomes `Option.getD`. -/
structure StepParams where
  latitude : Option ℚ := none
  longitude : Option ℚ := none
  target_datetime : Option String := none
  query : Option String := none
  radius : Option Int := none
  venue_type : Option String := none
  max_results : Option Int := none
  count : Option Int := none
  include_timeline : Option Bool := none
  include_backup_plan : Option Bool := none
deriving DecidableEq

/-- `schemas.PlanStep`.  The pydantic model constrains `action` to a
five-member `Literal`; the Executor's dispatcher nevertheless handles an
arbitrary tag defensively, so `action` is modelled as `String` (the
`Literal` constraint is a construction-time validation, not dispatch
logic). -/
structure PlanStep where
  id : String
  action : String
  params : StepParams
  reasoning : Option String := none
deriving DecidableEq

/-- `schemas.PlannerOutput`. -/
structure PlannerOutput where
  plan_id : String
  user_intent : String
  steps : List PlanStep
  estimated_budget : Option ℚ := none
  safety_notes : List String := []
deriving DecidableEq

/-- The `Dict[str, Any]` payload of a step result, as a tagged union of the
shapes the system produces.  Entries of list-shaped payloads and the
weather payload carry the outcome of re-validating them as pydantic models
(`Except.error` = a dict on which `Model(**d)` raises), so the verifier's
per-entry `try/except` loops can be modelled. -/
inductive StepPayload where
  | empty
  | weather (w : Except String WeatherResult)
  | venues (vs : List (Except String VenueResult))
  | events (es : List (Except String EventResult))
  | images (imgs : List (Except String ImageResult))
  | ready

/-- `schemas.ExecutorStepResult` (the `timestamp : datetime` field, set by
`datetime.now` and never read, is omitted). -/
structure ExecutorStepResult where
  step_id : String
  action : String
  status : StepStatus
  payload : StepPayload
  source : String
  error_message : Option String := none

/-- `schemas.ExecutorOutput`. -/
structure ExecutorOutput where
  plan_id : String
  results : List ExecutorStepResult
  overall_status : OverallStatus
  execution_time_seconds : ℚ

/-- `schemas.ValidationIssue`. -/
structure ValidationIssue where
  severity : Severity
  category : String
  message : String
  affected_step : Option String := none
  suggestion : Option String := none
deriving DecidableEq

/-- `schemas.SafetyCheck`. -/
structure SafetyCheck where
  public_venue : Bool
  operating_hours_valid : Bool
  crowd_rating : Option String := none
  emergency_info : List String := []
  safety_score : Int
deriving DecidableEq

/-- `schemas.DatePlanTimeline`. -/
structure DatePlanTimeline where
  time : String
  activity : String
  location : Option String := none
  duration_minutes : Option Int := none
  notes : Option String := none
deriving DecidableEq

/-- `schemas.FinalDatePlan` (the `created_at : datetime` field, set by
`datetime.now`, is omitted). -/
structure FinalDatePlan where
  title : String
  summary : String
  date_time : String
  city : String
  total_budget_estimate : String
  venues : List VenueResult
  weather_forecast : Option WeatherResult := none
  nearby_events : List EventResult := []
  timeline : List DatePlanTimeline
  safety_checklist : List String
  transportation_suggestions : List String
  backup_plan : Option String := none
  venue_images : List ImageResult := []
deriving DecidableEq

/-- `schemas.VerifierOutput` (the `verified_at : datetime` field is
omitted). -/
structure VerifierOutput where
  plan_id : String
  approved : Bool
  confidence_score : ℚ
  issues : List ValidationIssue := []
  safety_check : Option SafetyCheck := none
  final_output : Option FinalDatePlan := none
  retry_recommendations : List String := []
deriving DecidableEq

/-- The `user_request` dict consumed by the agents (shape of
`schemas.DatePlanRequest`); `.get(k)` / `.get(k, d)` accesses become
`Option` reads. -/
structure UserRequest where
  city : Option String := none
  budget_per_person : Option ℚ := none
  date_time : Option String := none
  preferences : Option String := none
  dietary_restrictions : Option (List String) := none
  accessibility_needs : Option String := none

/-! ## Python-semantics helpers -/

/-- Truthiness of an optional string: `None` and `""` are falsy. -/
def optStrTruthy : Option String → Bool
  | none => false
  | some s => s ≠ ""

/-- Truthiness of an optional number: `None` and `0` are falsy. -/
def optNumTruthy : Option ℚ → Bool
  | none => false
  | some q => q ≠ 0

/-- Substring containment on character lists (`sub in s` in Python). -/
def containsChars (l sub : List Char) : Bool :=
  l.tails.any (fun t => sub.isPrefixOf t)

/-- Python's `sub in s` substring test. -/
def strContainsSub (s sub : String) : Bool :=
  containsChars s.toList sub.toList

/-- Python's `s.lower()`, as a character list (string positions are avoided
throughout so every definition evaluates by reduction). -/
def pyLowerChars (s : String) : List Char :=
  s.toList.map Char.toLower

/-- Python's `s.strip()` on a character list: drop whitespace from both
ends. -/
def pyStripChars (l : List Char) : List Char :=
  ((l.dropWhile Char.isWhitespace).reverse.dropWhile Char.isWhitespace).reverse

/-- Python's `int(s)`: strips surrounding whitespace, accepts an optional
sign followed by at least one digit; anything else raises `ValueError`
(digit-group underscores are not modelled — no input of this system
carries them). -/
def pyInt (s : String) : Except String Int :=
  let t := pyStripChars s.toList
  let signAndDigits : Int × List Char :=
    match t with
    | '-' :: rest => (-1, rest)
    | '+' :: rest => (1, rest)
    | l => (1, l)
  if signAndDigits.2 ≠ [] ∧ signAndDigits.2.all Char.isDigit then
    Except.ok (signAndDigits.1 *
      (signAndDigits.2.foldl (fun acc c => acc * 10 + (c.toNat - '0'.toNat)) 0 : Nat))
  else
    Except.error ("invalid literal for int() with base 10: " ++ s)

/-- Comma-grouping of a reversed digit list, three digits per group
(helper for Python's `{...:,.0f}` format). -/
def commaGroupRev : List Char → List Char
  | a :: b :: c :: d :: rest => a :: b :: c :: ',' :: commaGroupRev (d :: rest)
  | l => l

/-- Round half to even (Python's `round` / `format` tie-breaking). -/
def roundHalfEven (q : ℚ) : Int :=
  let f := Int.floor q
  let frac := q - f
  if frac < 1/2 then f
  else if 1/2 < frac then f + 1
  else if f % 2 = 0 then f else f + 1

/-- Python's `f"{x:,.0f}"`: round half to even to an integer, group digits
of the absolute value in threes with commas. -/
def pyFormatComma0f (q : ℚ) : String :=
  let r := roundHalfEven q
  let digits := (toString r.natAbs).toList
  (if r < 0 then "-" else "") ++ String.mk (commaGroupRev digits.reverse).reverse

/-! ## `utils/helpers.py` -/

/-- Coordinate record returned by `extract_city_coordinates`. -/
structure CityCoords where
  lat : ℚ
  lon : ℚ
  country : String
deriving DecidableEq

/-- `helpers.extract_city_coordinates`: static lookup table of major Indian
cities keyed by the lower-cased, stripped city name; unknown cities map to
the `(0.0, 0.0, "UNKNOWN")` sentinel. -/
def extract_city_coordinates (city : String) : CityCoords :=
  let key := String.mk (pyStripChars (pyLowerChars city))
  if key = "mumbai" then ⟨19.0760, 72.8777, "IN"⟩
  else if key = "delhi" then ⟨28.7041, 77.1025, "IN"⟩
  else if key = "bangalore" then ⟨12.9716, 77.5946, "IN"⟩
  else if key = "bengaluru" then ⟨12.9716, 77.5946, "IN"⟩
  else if key = "pune" then ⟨18.5204, 73.8567, "IN"⟩
  else if key = "hyderabad" then ⟨17.3850, 78.4867, "IN"⟩
  else if key = "chennai" then ⟨13.0827, 80.2707, "IN"⟩
  else if key = "kolkata" then ⟨22.5726, 88.3639, "IN"⟩
  else if key = "ahmedabad" then ⟨23.0225, 72.5714, "IN"⟩
  else if key = "jaipur" then ⟨26.9124, 75.7873, "IN"⟩
  else if key = "goa" then ⟨15.2993, 74.1240, "IN"⟩
  else ⟨0.0, 0.0, "UNKNOWN"⟩

/-- The five fixed entries `generate_safety_checklist` always emits. -/
def baseChecklist : List String :=
  [ "Share live location with a trusted friend or family member",
    "Choose a public, well-lit venue",
    "Arrange your own transportation",
    "Keep emergency contacts handy",
    "Trust your instincts - leave if uncomfortable" ]

/-- The two additional late-night entries of `generate_safety_checklist`. -/
def lateNightItems : List String :=
  [ "Inform someone about your expected return time",
    "Book a verified cab service for return journey" ]

/-- The gate of the time-specific branch:
`"night" in time.lower() or "pm" in time.lower()`. -/
def nightOrPm (time : String) : Bool :=
  containsChars (pyLowerChars time) "night".toList ||
    containsChars (pyLowerChars time) "pm".toList

/-- `time.split(":")[0]`: the prefix before the first colon (the whole
string when no colon occurs — the branch below only evaluates this when
one does). -/
def beforeColon (time : String) : String :=
  String.mk (time.toList.takeWhile (fun c => c ≠ ':'))

/-- `hour = int(time.split(":")[0]) if ":" in time else 0` — the integer
parse can raise `ValueError`. -/
def parsedHour (time : String) : Except String Int :=
  if strContainsSub time ":" then pyInt (beforeColon time)
  else Except.ok 0

/-- `helpers.generate_safety_checklist`: five fixed items; when the string
contains `"night"` or `"pm"` (case-insensitively), the integer before the
first colon (0 when there is no colon) is computed and, when it is ≥ 21 or
≤ 4, the two late-night items are appended.  The `venue_name` parameter is
unused, as in the source. -/
def generate_safety_checklist (venue_name : String) (time : String) :
    Except String (List String) :=
  let _ := venue_name
  if nightOrPm time then
    match parsedHour time with
    | Except.error e => Except.error e
    | Except.ok hour =>
        if 21 ≤ hour ∨ hour ≤ 4 then Except.ok (baseChecklist ++ lateNightItems)
        else Except.ok baseChecklist
  else Except.ok baseChecklist

/-! ## Executor (`agents/executor.py`) -/

/-- The three provider clients initialised in `ExecutorAgent.__init__`,
abstracted as pure functions.  `Except.error` models an exception raised by
the provider call (caught by `_execute_step`'s `try/except`). -/
structure ProviderEnv where
  get_forecast : ℚ → ℚ → Option String → Except String (Option WeatherResult)
  search_venues : String → ℚ → ℚ → Int → String → Int → Except String (List VenueResult)
  search_images : String → Int → Except String (List ImageResult)

namespace ExecutorAgent

/-- The `failed` result built by `_execute_step`'s `except` clause:
`status="failed"`, empty payload, `source="executor"`, the exception's
message. -/
def exceptionResult (step : PlanStep) (msg : String) : ExecutorStepResult :=
  { step_id := step.id, action := step.action, status := StepStatus.failed,
    payload := StepPayload.empty, source := "executor", error_message := some msg }

/-- `ExecutorAgent._get_weather`: defaults latitude/longitude to 0, calls the
weather provider; `success` with the forecast payload on a non-null
result, `failed` with "Failed to fetch weather data" on `None`. -/
def getWeatherStep (env : ProviderEnv) (step : PlanStep) : ExecutorStepResult :=
  let latitude := step.params.latitude.getD 0
  let longitude := step.params.longitude.getD 0
  let target_datetime := step.params.target_datetime
  match env.get_forecast latitude longitude target_datetime with
  | Except.error e => exceptionResult step e
  | Except.ok (some w) =>
      { step_id := step.id, action := step.action, status := StepStatus.success,
        payload := StepPayload.weather (Except.ok w), source := "openweather" }
  | Except.ok none =>
      { step_id := step.id, action := step.action, status := StepStatus.failed,
        payload := StepPayload.empty, source := "openweather",
        error_message := some "Failed to fetch weather data" }

/-- `ExecutorAgent._search_venues`: defaults query "restaurant", radius 3000,
venue_type "restaurant", max_results 5; `success` with the venue list when
non-empty, else `partial` with an empty list. -/
def searchVenuesStep (env : ProviderEnv) (step : PlanStep) : ExecutorStepResult :=
  let query := step.params.query.getD "restaurant"
  let latitude := step.params.latitude.getD 0
  let longitude := step.params.longitude.getD 0
  let radius := step.params.radius.getD 3000
  let venue_type := step.params.venue_type.getD "restaurant"
  let max_results := step.params.max_results.getD 5
  match env.search_venues query latitude longitude radius venue_type max_results with
  | Except.error e => exceptionResult step e
  | Except.ok venues =>
      if venues ≠ [] then
        { step_id := step.id, action := step.action, status := StepStatus.success,
          payload := StepPayload.venues (venues.map Except.ok), source := "google_places" }
      else
        { step_id := step.id, action := step.action, status := StepStatus.partialResult,
          payload := StepPayload.venues [], source := "google_places",
          error_message := some "No venues found matching criteria" }

/-- `ExecutorAgent._check_events`: placeholder — always `success` with an
empty event list and a note that no events source is integrated. -/
def checkEventsStep (step : PlanStep) : ExecutorStepResult :=
  { step_id := step.id, action := step.action, status := StepStatus.success,
    payload := StepPayload.events [], source := "events_placeholder",
    error_message := some "Events API not integrated (placeholder)" }

/-- `ExecutorAgent._get_images`: defaults query "romantic date", count 3;
`success` with the images when non-empty, else `partial`. -/
def getImagesStep (env : ProviderEnv) (step : PlanStep) : ExecutorStepResult :=
  let query := step.params.query.getD "romantic date"
  let count := step.params.count.getD 3
  match env.search_images query count with
  | Except.error e => exceptionResult step e
  | Except.ok images =>
      if images ≠ [] then
        { step_id := step.id, action := step.action, status := StepStatus.success,
          payload := StepPayload.images (images.map Except.ok), source := "unsplash" }
      else
        { step_id := step.id, action := step.action, status := StepStatus.partialResult,
          payload := StepPayload.images [], source := "unsplash",
          error_message := some "No images found" }

/-- `ExecutorAgent._compose_final`: always `success`, payload signalling
readiness for composition, no provider call. -/
def composeFinalStep (step : PlanStep) : ExecutorStepResult :=
  { step_id := step.id, action := step.action, status := StepStatus.success,
    payload := StepPayload.ready, source := "executor" }

/-- `ExecutorAgent._execute_step`: dispatch strictly on the action tag to one
of the five handlers; an unrecognised tag yields a `failed` result with
`source="executor"` and a message naming the action.  Provider exceptions
(`Except.error` inside the handlers) are converted to `failed` results by
the surrounding `try/except`; nothing escapes. -/
def executeStep (env : ProviderEnv) (step : PlanStep) : ExecutorStepResult :=
  if step.action = "get_weather" then getWeatherStep env step
  else if step.action = "search_venues" then searchVenuesStep env step
  else if step.action = "check_events" then checkEventsStep step
  else if step.action = "get_images" then getImagesStep env step
  else if step.action = "compose_final" then composeFinalStep step
  else
    { step_id := step.id, action := step.action, status := StepStatus.failed,
      payload := StepPayload.empty, source := "executor",
      error_message := some ("Unknown action: " ++ step.action) }

/-- Step selection of `ExecutorAgent.execute`: a truthy `retry_steps` (a
non-`None`, non-empty list) restricts execution to the steps whose id it
contains, preserving plan order; otherwise every step is selected. -/
def selectSteps (steps : List PlanStep) (retry_steps : Option (List String)) :
    List PlanStep :=
  match retry_steps with
  | none => steps
  | some rs => if rs.isEmpty then steps else steps.filter (fun s => rs.contains s.id)

/-- The `overall_status` aggregation of `ExecutorAgent.execute`:
`success` when the success count equals the number of results,
`partial_success` when it is positive, `failed` otherwise. -/
def overallStatus (results : List ExecutorStepResult) : OverallStatus :=
  let success_count := results.countP (fun r => decide (r.status = StepStatus.success))
  if success_count = results.length then OverallStatus.success
  else if 0 < success_count then OverallStatus.partialSuccess
  else OverallStatus.failed

/-- `ExecutorAgent.execute`: select the steps (all, or the retry subset),
run each through `_execute_step` in order, aggregate the overall status.
`elapsed_seconds` stands for the wall-clock measurement
`round(time.time() - start_time, 2)`, which is external. -/
def execute (env : ProviderEnv) (plan : PlannerOutput)
    (retry_steps : Option (List String)) (elapsed_seconds : ℚ) : ExecutorOutput :=
  let steps_to_execute := selectSteps plan.steps retry_steps
  let results := steps_to_execute.map (executeStep env)
  { plan_id := plan.plan_id, results := results,
    overall_status := overallStatus results,
    execution_time_seconds := elapsed_seconds }

end ExecutorAgent

/-! ## Planner (`agents/planner_gemini.py`) -/

/-- The parsed JSON object returned by the Gemini call, after markdown-fence
stripping and `json.loads`.  Each raw step dict carries the outcome of
`PlanStep(**step)` validation; a missing key is `none` (`dict.get`
defaults apply). -/
structure LLMPlan where
  user_intent : Option String := none
  steps : List (Except String PlanStep) := []
  estimated_budget : Option ℚ := none
  safety_notes : Option (List String) := none

namespace PlannerAgent

/-- `[PlanStep(**step) for step in plan_data.get("steps", [])]` — the first
validation error aborts the comprehension (and sends `plan` to the
fallback path). -/
def buildSteps : List (Except String PlanStep) → Except String (List PlanStep)
  | [] => Except.ok []
  | Except.error e :: _ => Except.error e
  | Except.ok s :: rest => (buildSteps rest).map (fun l => s :: l)

/-- `PlannerAgent._create_fallback_plan`: the deterministic four-step plan
(weather at the resolved coordinates, venue search with the
preferences-derived query, images with the fixed query, compose) plus the
three fixed safety notes. -/
def createFallbackPlan (plan_id city : String) (lat lon : ℚ)
    (budget : Option ℚ) (preferences : String) : PlannerOutput :=
  { plan_id := plan_id,
    user_intent := "Plan a date in " ++ city,
    steps :=
      [ { id := "step_1", action := "get_weather",
          params := { latitude := some lat, longitude := some lon },
          reasoning := some "Check weather conditions for the date" },
        { id := "step_2", action := "search_venues",
          params := { query := some (if preferences ≠ "" then preferences ++ " restaurant"
                                     else "restaurant"),
                      latitude := some lat, longitude := some lon,
                      radius := some 3000, venue_type := some "restaurant",
                      max_results := some 5 },
          reasoning := some "Find suitable dining venues" },
        { id := "step_3", action := "get_images",
          params := { query := some "romantic restaurant dinner", count := some 3 },
          reasoning := some "Get inspirational images" },
        { id := "step_4", action := "compose_final",
          params := { include_timeline := some true, include_backup_plan := some true },
          reasoning := some "Compose final date plan" } ],
    estimated_budget := budget,
    safety_notes :=
      [ "Choose a public, well-lit venue",
        "Share location with a trusted friend",
        "Arrange your own transportation" ] }

/-- `PlannerAgent.plan`: resolve the city coordinates, hand the request to
the LLM (`llm_outcome` abstracts the call + parse + validation block), and
construct the `PlannerOutput`; any failure in that block is caught and
answered with the deterministic fallback plan.  `plan_id` stands for the
time-derived `generate_plan_id()`.  The prompt construction
(`_build_prompt`, `parse_date_time`, `calculate_price_bracket`) only feeds
the external LLM call and is absorbed into `llm_outcome`. -/
def plan (llm_outcome : Except String LLMPlan) (plan_id : String)
    (user_request : UserRequest) : PlannerOutput :=
  let city := user_request.city.getD ""
  let budget := user_request.budget_per_person
  let preferences := user_request.preferences.getD ""
  let coords := extract_city_coordinates city
  match llm_outcome with
  | Except.error _ => createFallbackPlan plan_id city coords.lat coords.lon budget preferences
  | Except.ok plan_data =>
      match buildSteps plan_data.steps with
      | Except.error _ =>
          createFallbackPlan plan_id city coords.lat coords.lon budget preferences
      | Except.ok steps =>
          { plan_id := plan_id,
            user_intent := plan_data.user_intent.getD ("Plan a date in " ++ city),
            steps := steps,
            estimated_budget := (plan_data.estimated_budget.map some).getD budget,
            safety_notes := plan_data.safety_notes.getD [] }

end PlannerAgent

/-! ## Verifier (`agents/verifier.py`) -/

namespace VerifierAgent

/-- `_extract_venues`: collect, from every `search_venues` result with
status `success`, the payload's `"venues"` entries that validate as
`VenueResult` (unparsable entries are skipped with a warning). -/
def extractVenues (executor_output : ExecutorOutput) : List VenueResult :=
  executor_output.results.foldl
    (fun acc r =>
      if r.action = "search_venues" ∧ r.status = StepStatus.success then
        acc ++ (match r.payload with
                | StepPayload.venues vs => vs.filterMap (fun v => v.toOption)
                | _ => [])
      else acc) []

/-- `_extract_weather`: the first `get_weather` result with status `success`
whose payload validates as a `WeatherResult` (a failed validation skips to
the next result). -/
def extractWeather : List ExecutorStepResult → Option WeatherResult
  | [] => none
  | r :: rest =>
      if r.action = "get_weather" ∧ r.status = StepStatus.success then
        match r.payload with
        | StepPayload.weather (Except.ok w) => some w
        | _ => extractWeather rest
      else extractWeather rest

/-- `_extract_events` — same per-entry fault-tolerant pattern as venues. -/
def extractEvents (executor_output : ExecutorOutput) : List EventResult :=
  executor_output.results.foldl
    (fun acc r =>
      if r.action = "check_events" ∧ r.status = StepStatus.success then
        acc ++ (match r.payload with
                | StepPayload.events es => es.filterMap (fun e => e.toOption)
                | _ => [])
      else acc) []

/-- `_extract_images` — same per-entry fault-tolerant pattern as venues. -/
def extractImages (executor_output : ExecutorOutput) : List ImageResult :=
  executor_output.results.foldl
    (fun acc r =>
      if r.action = "get_images" ∧ r.status = StepStatus.success then
        acc ++ (match r.payload with
                | StepPayload.images imgs => imgs.filterMap (fun i => i.toOption)
                | _ => [])
      else acc) []

/-- The critical issue emitted by `_validate_venues` when no venue was
extracted. -/
def noVenuesIssue : ValidationIssue :=
  { severity := Severity.critical, category := "venues",
    message := "No venues found matching criteria",
    suggestion := some "Try broadening search criteria or increasing search radius" }

/-- The warning emitted by `_validate_venues` for 1–2 venues. -/
def limitedVenuesIssue (n : Nat) : ValidationIssue :=
  { severity := Severity.warning, category := "venues",
    message := "Only " ++ toString n ++ " venues found - limited options",
    suggestion := some "Consider alternative cuisines or venue types" }

/-- The info issue emitted by `_validate_venues` when fewer than half the
venues carry a positive rating. -/
def missingRatingIssue : ValidationIssue :=
  { severity := Severity.info, category := "venues",
    message := "Some venues missing rating information",
    suggestion := some "Verify venue quality through other sources" }

/-- The warning emitted by `_validate_venues` when accessibility is needed
but no venue is confirmed wheelchair-accessible. -/
def accessibilityIssue : ValidationIssue :=
  { severity := Severity.warning, category := "accessibility",
    message := "No confirmed wheelchair-accessible venues found",
    suggestion := some "Call venues directly to confirm accessibility" }

/-- `v.rating and v.rating > 0` (a `None` or `0.0` rating is falsy). -/
def ratingTruthyPos (v : VenueResult) : Bool :=
  match v.rating with
  | some r => decide (0 < r)
  | none => false

/-- `_validate_venues`: the venue-count issue (critical at zero, warning
below three), the missing-rating info issue, and — when the request states
accessibility needs — the accessibility warning. -/
def validateVenues (venues : List VenueResult) (user_request : UserRequest) :
    List ValidationIssue :=
  let countIssues :=
    if venues.length = 0 then [noVenuesIssue]
    else if venues.length < 3 then [limitedVenuesIssue venues.length]
    else []
  let rated_venues := venues.filter ratingTruthyPos
  let ratingIssues :=
    if (rated_venues.length : ℚ) < (venues.length : ℚ) * 0.5 then [missingRatingIssue]
    else []
  let accessibilityIssues :=
    if optStrTruthy user_request.accessibility_needs then
      if (venues.filter (fun v => decide (v.wheelchair_accessible = some true))).length = 0
      then [accessibilityIssue] else []
    else []
  countIssues ++ ratingIssues ++ accessibilityIssues

/-- The warning emitted by `_validate_weather` when no weather data is
available. -/
def weatherUnavailableIssue : ValidationIssue :=
  { severity := Severity.warning, category := "weather",
    message := "Weather data unavailable",
    suggestion := some "Check weather manually before the date" }

/-- `_validate_weather`: missing weather is a warning; rain probability
above 70 a warning; temperature above 35 or below 10 an info issue. -/
def validateWeather (weather : Option WeatherResult) : List ValidationIssue :=
  match weather with
  | none => [weatherUnavailableIssue]
  | some w =>
      (if (match w.rain_probability with
           | some p => decide (70 < p)
           | none => false) then
        [ { severity := Severity.warning, category := "weather",
            message := "High chance of rain (" ++
              toString (w.rain_probability.getD 0) ++ "%)",
            suggestion := some "Choose indoor venues or carry umbrellas" } ]
      else []) ++
      (if 35 < w.temperature then
        [ { severity := Severity.info, category := "weather",
            message := "Very hot weather expected",
            suggestion := some "Choose air-conditioned venues and stay hydrated" } ]
      else if w.temperature < 10 then
        [ { severity := Severity.info, category := "weather",
            message := "Cold weather expected",
            suggestion := some "Dress warmly and consider indoor venues" } ]
      else [])

/-- The warning `_validate_budget` emits when every venue's estimated cost
exceeds the budget (vacuously when there is no venue at all). -/
def allOverBudgetIssue : ValidationIssue :=
  { severity := Severity.warning, category := "budget",
    message := "All suggested venues may exceed budget",
    suggestion := some "Consider lower-priced alternatives or adjust budget" }

/-- The info issue `_validate_budget` emits when some but not all venues
exceed the budget. -/
def someOverBudgetIssue (n : Nat) : ValidationIssue :=
  { severity := Severity.info, category := "budget",
    message := toString n ++ " venues may be above budget",
    suggestion := some "Review menu prices before booking" }

/-- `venue.price_level and venue.price_level > 0` followed by
`price_level * 750 > budget`. -/
def overBudget (b : ℚ) (v : VenueResult) : Bool :=
  match v.price_level with
  | some pl => decide (0 < pl) && decide (b < (pl * 750 : Int))
  | none => false

/-- `_validate_budget`: nothing without a truthy budget; otherwise count the
venues whose estimated cost `price_level * 750` exceeds the budget, and
emit the all-over-budget warning when that count equals the venue count
(0 = 0 included), or the some-over-budget info issue when it is positive. -/
def validateBudget (venues : List VenueResult) (budget : Option ℚ) :
    List ValidationIssue :=
  match budget with
  | none => []
  | some b =>
      if b = 0 then []
      else
        let over_budget_count := (venues.filter (overBudget b)).length
        if over_budget_count = venues.length then [allOverBudgetIssue]
        else if 0 < over_budget_count then [someOverBudgetIssue over_budget_count]
        else []

/-- `_perform_safety_check`: public iff any venue, hours valid unless some
venue is explicitly closed, fixed emergency contacts interpolating the
city, base safety score 8 with deductions clamped at 0. -/
def performSafetyCheck (venues : List VenueResult) (user_request : UserRequest) :
    SafetyCheck :=
  let operating_hours_valid := !(venues.any (fun v => decide (v.open_now = some false)))
  let city := user_request.city.getD ""
  let safety_score : Int :=
    8 - (if operating_hours_valid then 0 else 1) - (if venues.length = 0 then 2 else 0)
  { public_venue := decide (0 < venues.length),
    operating_hours_valid := operating_hours_valid,
    crowd_rating := some "Moderate",
    emergency_info :=
      [ "Emergency: 112 (India)",
        "Local police: Search '" ++ city ++ " police station'",
        "Women's helpline: 1091",
        "Ambulance: 108" ],
    safety_score := max 0 safety_score }

/-- Per-issue confidence deduction of `_calculate_confidence`:
0.3 critical, 0.1 warning, 0.05 otherwise (info). -/
def issueDeduction (i : ValidationIssue) : ℚ :=
  match i.severity with
  | Severity.critical => 0.3
  | Severity.warning => 0.1
  | Severity.info => 0.05

/-- The pre-clamp confidence score of `_calculate_confidence`: start at 1.0,
subtract 0.5 for zero venues (else 0.2 below three), 0.1 for missing
weather, and the per-issue deductions in sequence. -/
def confidenceRaw (venues : List VenueResult) (weather : Option WeatherResult)
    (issues : List ValidationIssue) : ℚ :=
  let score : ℚ := 1
  let score := if venues.length = 0 then score - 0.5
               else if venues.length < 3 then score - 0.2
               else score
  let score := if weather.isNone then score - 0.1 else score
  issues.foldl (fun s i => s - issueDeduction i) score

/-- `_calculate_confidence`: the sequential deductions, then
`max(0.0, min(1.0, score))`. -/
def calculateConfidence (venues : List VenueResult) (weather : Option WeatherResult)
    (issues : List ValidationIssue) : ℚ :=
  max 0 (min 1 (confidenceRaw venues weather issues))

/-- `_generate_retry_recommendations`: two fixed strings appended per
critical venues-category issue. -/
def generateRetryRecommendations (issues : List ValidationIssue)
    (executor_output : ExecutorOutput) : List String :=
  let _ := executor_output
  issues.foldl
    (fun acc i =>
      if i.severity = Severity.critical then
        if i.category = "venues" then
          acc ++ [ "Retry venue search with broader criteria",
                   "Increase search radius to 5000m" ]
        else acc
      else acc) []

/-- `_generate_timeline`: the five fixed-offset entries keyed to the first
venue's name, or an empty timeline without venues. -/
def generateTimeline (date_time : String) (venues : List VenueResult) :
    List DatePlanTimeline :=
  let _ := date_time
  match venues with
  | [] => []
  | v :: _ =>
      [ { time := "6:30 PM", activity := "Meet at venue", location := some v.name,
          duration_minutes := some 15,
          notes := some "Arrive a bit early to get a good table" },
        { time := "6:45 PM", activity := "Order drinks/appetizers", location := some v.name,
          duration_minutes := some 30, notes := some "Start with light conversation" },
        { time := "7:15 PM", activity := "Main course", location := some v.name,
          duration_minutes := some 60, notes := some "Enjoy your meal together" },
        { time := "8:30 PM", activity := "Dessert/wrap up", location := some v.name,
          duration_minutes := some 30,
          notes := some "Optional: Explore nearby for a walk" },
        { time := "9:00 PM", activity := "Head home", location := some "Safe return journey",
          duration_minutes := none,
          notes := some "Share your ride details with someone" } ]

/-- `_compose_final_plan`: title and summary templated from the city and
user intent, the generated timeline, the safety checklist (whose hour
parse can raise, hence `Except`), fixed transportation suggestions, a
rain-conditional backup plan, the top-5 venues in provider order, and the
`2 × budget` display string (or "Flexible" without a truthy budget).  The
`safety_check` argument is received but unused, as in the source. -/
def composeFinalPlan (plan : PlannerOutput) (user_request : UserRequest)
    (venues : List VenueResult) (weather : Option WeatherResult)
    (events : List EventResult) (images : List ImageResult)
    (safety_check : SafetyCheck) : Except String FinalDatePlan :=
  let _ := safety_check
  let city := user_request.city.getD ""
  let date_time := user_request.date_time.getD ""
  let budget := user_request.budget_per_person
  let title := "Date Night in " ++ city
  let summary := plan.user_intent ++ ". We've found " ++ toString venues.length ++
    " great venue options for you!"
  let timeline := generateTimeline date_time venues
  match generate_safety_checklist
      (match venues with | [] => "" | v :: _ => v.name) date_time with
  | Except.error e => Except.error e
  | Except.ok safety_checklist =>
      Except.ok
        { title := title, summary := summary, date_time := date_time, city := city,
          total_budget_estimate :=
            (match budget with
             | some b => if b = 0 then "Flexible" else "₹" ++ pyFormatComma0f (b * 2)
             | none => "Flexible"),
          venues := venues.take 5,
          weather_forecast := weather,
          nearby_events := events,
          timeline := timeline,
          safety_checklist := safety_checklist,
          transportation_suggestions :=
            [ "Book a cab through Uber/Ola for convenience",
              "Share ride details with a friend",
              "Metro is a safe and affordable option for major cities",
              "Arrive 10-15 minutes early" ],
          backup_plan :=
            (if (match weather with
                 | some w => (match w.rain_probability with
                              | some p => decide (50 < p)
                              | none => false)
                 | none => false) then
              some "If it rains heavily, consider rescheduling or choosing a fully indoor venue with covered parking."
            else none),
          venue_images := images }

/-- The issue list `verify` computes: venue validation, then weather
validation, then budget validation, concatenated in that order. -/
def verifyIssues (executor_output : ExecutorOutput) (user_request : UserRequest) :
    List ValidationIssue :=
  let venues := extractVenues executor_output
  validateVenues venues user_request ++
    validateWeather (extractWeather executor_output.results) ++
    validateBudget venues user_request.budget_per_person

/-- `VerifierAgent.verify`: extract the typed collections, validate,
perform the safety check, approve iff zero critical issues and at least
one venue, compute the confidence score, and either compose the final
plan (approved) or generate retry recommendations (not approved). -/
def verify (plan : PlannerOutput) (executor_output : ExecutorOutput)
    (user_request : UserRequest) : Except String VerifierOutput :=
  let venues := extractVenues executor_output
  let weather := extractWeather executor_output.results
  let events := extractEvents executor_output
  let images := extractImages executor_output
  let issues := verifyIssues executor_output user_request
  let safety_check := performSafetyCheck venues user_request
  let critical_issues := issues.filter (fun i => decide (i.severity = Severity.critical))
  let approved := decide (critical_issues.length = 0) && decide (0 < venues.length)
  let confidence_score := calculateConfidence venues weather issues
  if approved then
    match composeFinalPlan plan user_request venues weather events images safety_check with
    | Except.error e => Except.error e
    | Except.ok final_plan =>
        Except.ok
          { plan_id := plan.plan_id, approved := approved,
            confidence_score := confidence_score, issues := issues,
            safety_check := some safety_check, final_output := some final_plan,
            retry_recommendations := [] }
  else
    Except.ok
      { plan_id := plan.plan_id, approved := approved,
        confidence_score := confidence_score, issues := issues,
        safety_check := some safety_check, final_output := none,
        retry_recommendations := generateRetryRecommendations issues executor_output }

end VerifierAgent

/-! ## Spec-side definitions (refinement comparison for the confidence
score; written from the specification text, not from the code) -/

/-- Per-issue deduction as the spec words it: 0.3 for critical, 0.1 for
warning, 0.05 for info. -/
def specIssueDeduction (i : ValidationIssue) : ℚ :=
  match i.severity with
  | Severity.critical => 0.3
  | Severity.warning => 0.1
  | Severity.info => 0.05

/-- Total deduction as the spec words it: the additive sum of the
venue-count deduction (0.5 at zero venues, else 0.2 below three), the
missing-weather deduction (0.1), and the per-issue deductions. -/
def specTotalDeduction (venues : List VenueResult) (weather : Option WeatherResult)
    (issues : List ValidationIssue) : ℚ :=
  (if venues.length = 0 then 0.5 else if venues.length < 3 then 0.2 else 0) +
  (if weather = none then 0.1 else 0) +
  (issues.map specIssueDeduction).sum

/-! ## Concrete fixtures (shared by witnesses and counterexamples) -/

/-- A provider environment whose calls all succeed with empty data. -/
def sampleEnv : ProviderEnv :=
  { get_forecast := fun _ _ _ => Except.ok none,
    search_venues := fun _ _ _ _ _ _ => Except.ok [],
    search_images := fun _ _ => Except.ok [] }

/-- A plan with no steps. -/
def emptyPlan : PlannerOutput :=
  { plan_id := "plan_0", user_intent := "A quiet evening", steps := [] }

/-- A plan with one succeeding step (`compose_final`) and one step with an
unrecognised action tag. -/
def mixedPlan : PlannerOutput :=
  { plan_id := "plan_1", user_intent := "A mixed evening",
    steps := [ { id := "s1", action := "compose_final", params := {} },
               { id := "s2", action := "teleport", params := {} } ] }

/-- An executor output with no step results. -/
def sampleEO : ExecutorOutput :=
  { plan_id := "plan_0", results := [], overall_status := OverallStatus.success,
    execution_time_seconds := 0 }

/-- A request with every optional field absent. -/
def sampleReq : UserRequest := {}

/-- A request carrying a positive budget. -/
def budgetReq : UserRequest :=
  { city := some "Mumbai", budget_per_person := some 100,
    date_time := some "Saturday 7pm" }

/-- A step with an action tag outside the five-member enum. -/
def unknownStep : PlanStep := { id := "s9", action := "dance", params := {} }

/-- Placeholder verifier output (only used as the impossible-branch default
of `sampleVerifierOut`). -/
def fallbackVerifierOut : VerifierOutput :=
  { plan_id := "", approved := false, confidence_score := 0 }

/-- The verifier output on the empty fixtures (the `verify` call succeeds,
so the default branch is dead). -/
def sampleVerifierOut : VerifierOutput :=
  match VerifierAgent.verify emptyPlan sampleEO sampleReq with
  | Except.ok o => o
  | Except.error _ => fallbackVerifierOut

end DatePlanner

namespace DatePlanner

open VerifierAgent ExecutorAgent

/-! ## Auxiliary lemmas -/

/-- Folding the per-issue deductions subtracts their sum. -/
lemma foldl_sub_deduction (issues : List ValidationIssue) (s : ℚ) :
    issues.foldl (fun a i => a - issueDeduction i) s =
      s - (issues.map issueDeduction).sum := by
  induction issues generalizing s with
  | nil => simp
  | cons i rest ih =>
      simp [List.foldl_cons, ih]
      ring

/-- Everything `verify` puts into an `Except.ok` output, in terms of the
extraction and validation functions. -/
lemma verify_ok_spec (p : PlannerOutput) (eo : ExecutorOutput) (req : UserRequest)
    (out : VerifierOutput) (h : verify p eo req = Except.ok out) :
    out.approved = (decide (((verifyIssues eo req).filter
        (fun i => decide (i.severity = Severity.critical))).length = 0) &&
      decide (0 < (extractVenues eo).length)) ∧
    out.issues = verifyIssues eo req ∧
    out.final_output.isSome = out.approved ∧
    out.retry_recommendations =
      (if ((verifyIssues eo req).filter
            (fun i => decide (i.severity = Severity.critical))).length = 0 ∧
          0 < (extractVenues eo).length then []
       else generateRetryRecommendations (verifyIssues eo req) eo) := by
  unfold verify at h
  dsimp only at h
  have hb : ((decide (((verifyIssues eo req).filter
      (fun i => decide (i.severity = Severity.critical))).length = 0) &&
      decide (0 < (extractVenues eo).length)) = true) ↔
      (((verifyIssues eo req).filter
        (fun i => decide (i.severity = Severity.critical))).length = 0 ∧
      0 < (extractVenues eo).length) := by simp
  by_cases hc : (((verifyIssues eo req).filter
      (fun i => decide (i.severity = Severity.critical))).length = 0 ∧
      0 < (extractVenues eo).length)
  · rw [if_pos (hb.mpr hc)] at h
    cases hfp : composeFinalPlan p req (extractVenues eo) (extractWeather eo.results)
        (extractEvents eo) (extractImages eo) (performSafetyCheck (extractVenues eo) req) with
    | error e => rw [hfp] at h; exact Except.noConfusion h
    | ok fp =>
        rw [hfp] at h
        injection h with h'
        subst h'
        refine ⟨rfl, rfl, ?_, ?_⟩
        · simp only [Option.isSome_some]
          exact (hb.mpr hc).symm
        · rw [if_pos hc]
  · have hbf : ¬ ((decide (((verifyIssues eo req).filter
        (fun i => decide (i.severity = Severity.critical))).length = 0) &&
        decide (0 < (extractVenues eo).length)) = true) := fun ht => hc (hb.mp ht)
    rw [if_neg hbf] at h
    injection h with h'
    subst h'
    refine ⟨rfl, rfl, ?_, ?_⟩
    · simp only [Option.isSome_none]
      exact (Bool.eq_false_iff.mpr hbf).symm
    · rw [if_neg hc]

/-- `_validate_weather` never emits a critical issue. -/
lemma validateWeather_not_critical (w : Option WeatherResult) :
    ∀ i ∈ validateWeather w, i.severity ≠ Severity.critical := by
  intro i hi
  unfold validateWeather at hi
  cases w with
  | none =>
      simp only [List.mem_singleton] at hi
      subst hi
      simp [weatherUnavailableIssue]
  | some w =>
      simp only [List.mem_append] at hi
      rcases hi with hi | hi
      · split at hi
        · simp only [List.mem_singleton] at hi
          subst hi
          simp
        · exact absurd hi (List.not_mem_nil i)
      · split at hi
        · simp only [List.mem_singleton] at hi
          subst hi
          simp
        · split at hi
          · simp only [List.mem_singleton] at hi
            subst hi
            simp
          · exact absurd hi (List.not_mem_nil i)

/-- `_validate_budget` never emits a critical issue. -/
lemma validateBudget_not_critical (venues : List VenueResult) (budget : Option ℚ) :
    ∀ i ∈ validateBudget venues budget, i.severity ≠ Severity.critical := by
  intro i hi
  cases budget with
  | none => simp [validateBudget] at hi
  | some b =>
      unfold validateBudget at hi
      dsimp only at hi
      split at hi
      · exact absurd hi (List.not_mem_nil i)
      · split at hi
        · simp only [List.mem_singleton] at hi
          subst hi
          simp [allOverBudgetIssue]
        · split at hi
          · simp only [List.mem_singleton] at hi
            subst hi
            simp [someOverBudgetIssue]
          · exact absurd hi (List.not_mem_nil i)

/-- The only critical issue `_validate_venues` can emit is the
zero-venues one. -/
lemma validateVenues_critical (venues : List VenueResult) (req : UserRequest) :
    ∀ i ∈ validateVenues venues req, i.severity = Severity.critical →
      i = noVenuesIssue ∧ venues = [] := by
  intro i hi hcrit
  unfold validateVenues at hi
  simp only [List.mem_append] at hi
  rcases hi with (hi | hi) | hi
  · split at hi
    · simp only [List.mem_singleton] at hi
      subst hi
      rename_i hlen
      exact ⟨rfl, List.length_eq_zero.mp hlen⟩
    · split at hi
      · simp only [List.mem_singleton] at hi
        subst hi
        exact absurd hcrit (by simp [limitedVenuesIssue])
      · exact absurd hi (List.not_mem_nil i)
  · split at hi
    · simp only [List.mem_singleton] at hi
      subst hi
      exact absurd hcrit (by simp [missingRatingIssue])
    · exact absurd hi (List.not_mem_nil i)
  · split at hi
    · split at hi
      · simp only [List.mem_singleton] at hi
        subst hi
        exact absurd hcrit (by simp [accessibilityIssue])
      · exact absurd hi (List.not_mem_nil i)
    · exact absurd hi (List.not_mem_nil i)

/-- A critical issue in the verifier's computed list forces an empty venue
extraction (and is the zero-venues issue). -/
lemma verifyIssues_critical (eo : ExecutorOutput) (req : UserRequest) :
    ∀ i ∈ verifyIssues eo req, i.severity = Severity.critical →
      i = noVenuesIssue ∧ extractVenues eo = [] := by
  intro i hi hcrit
  unfold verifyIssues at hi
  dsimp only at hi
  simp only [List.mem_append] at hi
  rcases hi with (hi | hi) | hi
  · exact validateVenues_critical _ _ i hi hcrit
  · exact absurd hcrit (validateWeather_not_critical _ i hi)
  · exact absurd hcrit (validateBudget_not_critical _ _ i hi)

/-- With an empty venue extraction the computed issue list contains the
zero-venues critical issue. -/
lemma noVenuesIssue_mem (eo : ExecutorOutput) (req : UserRequest)
    (h : extractVenues eo = []) : noVenuesIssue ∈ verifyIssues eo req := by
  unfold verifyIssues
  dsimp only
  rw [h]
  simp [validateVenues]

/-- The retry-recommendation fold, as a filter over the critical
venues-category issues followed by the two fixed strings per issue. -/
lemma generateRetryRecommendations_eq (issues : List ValidationIssue)
    (eo : ExecutorOutput) :
    generateRetryRecommendations issues eo =
      (issues.filter (fun i =>
        decide (i.severity = Severity.critical ∧ i.category = "venues"))).flatMap
        (fun _ => [ "Retry venue search with broader criteria",
                    "Increase search radius to 5000m" ]) := by
  unfold generateRetryRecommendations
  dsimp only
  suffices haux : ∀ (l : List ValidationIssue) (acc : List String),
      l.foldl (fun acc i =>
        if i.severity = Severity.critical then
          if i.category = "venues" then
            acc ++ [ "Retry venue search with broader criteria",
                     "Increase search radius to 5000m" ]
          else acc
        else acc) acc =
      acc ++ (l.filter (fun i =>
        decide (i.severity = Severity.critical ∧ i.category = "venues"))).flatMap
        (fun _ => [ "Retry venue search with broader criteria",
                    "Increase search radius to 5000m" ]) by
    simpa using haux issues []
  intro l
  induction l with
  | nil => intro acc; simp
  | cons i rest ih =>
      intro acc
      by_cases h1 : i.severity = Severity.critical <;>
        by_cases h2 : i.category = "venues" <;>
          simp [h1, h2, ih, List.append_assoc]

/-- The three-way aggregation rule of `overall_status`, with the empty
result list landing in `success`. -/
lemma overallStatus_spec (results : List ExecutorStepResult) :
    (overallStatus results = OverallStatus.success ↔
      ∀ r ∈ results, r.status = StepStatus.success) ∧
    (overallStatus results = OverallStatus.failed ↔
      (results ≠ [] ∧ ∀ r ∈ results, r.status ≠ StepStatus.success)) ∧
    (((∃ r ∈ results, r.status = StepStatus.success) ∧
      (∃ r ∈ results, r.status ≠ StepStatus.success)) →
      overallStatus results = OverallStatus.partialSuccess) := by
  unfold overallStatus
  dsimp only
  split_ifs with h1 h2
  · have hall : ∀ r ∈ results, r.status = StepStatus.success := by
      have := List.countP_eq_length.mp h1
      intro r hr
      simpa using this r hr
    refine ⟨iff_of_true rfl hall, iff_of_false (by simp) ?_, ?_⟩
    · rintro ⟨hne, hnone⟩
      obtain ⟨r, hr⟩ := List.exists_mem_of_ne_nil _ hne
      exact hnone r hr (hall r hr)
    · rintro ⟨-, ⟨r, hr, hrs⟩⟩
      exact absurd (hall r hr) hrs
  · refine ⟨iff_of_false (by simp) ?_, iff_of_false (by simp) ?_, fun _ => rfl⟩
    · intro hall
      exact h1 (List.countP_eq_length.mpr (fun r hr => by simpa using hall r hr))
    · rintro ⟨hne, hnone⟩
      obtain ⟨r, hr, hrp⟩ := List.countP_pos_iff.mp h2
      exact hnone r hr (by simpa using hrp)
  · have hk0 : results.countP (fun r => decide (r.status = StepStatus.success)) = 0 :=
      Nat.eq_zero_of_not_pos h2
    have hnone : ∀ r ∈ results, r.status ≠ StepStatus.success := by
      have := List.countP_eq_zero.mp hk0
      intro r hr
      simpa using this r hr
    have hne : results ≠ [] := by
      intro hnil
      exact h1 (by rw [hnil]; rfl)
    refine ⟨iff_of_false (by simp) ?_, iff_of_true rfl ⟨hne, hnone⟩, ?_⟩
    · intro hall
      obtain ⟨r, hr⟩ := List.exists_mem_of_ne_nil _ hne
      exact hnone r hr (hall r hr)
    · rintro ⟨⟨r, hr, hrs⟩, -⟩
      exact absurd hrs (hnone r hr)

end DatePlanner

namespace DatePlanner

open VerifierAgent ExecutorAgent

/-! ## Claim theorems -/

/-- C1: `verify` approves exactly when the computed issue list has no
critical issue and the extracted venue list is non-empty; in particular an
empty venue extraction forces rejection. -/
theorem claim_C1_approval_rule (p : PlannerOutput) (eo : ExecutorOutput)
    (req : UserRequest) (out : VerifierOutput)
    (h : VerifierAgent.verify p eo req = Except.ok out) :
    (out.approved = true ↔
      ((∀ i ∈ VerifierAgent.verifyIssues eo req, i.severity ≠ Severity.critical) ∧
        VerifierAgent.extractVenues eo ≠ [])) ∧
    (VerifierAgent.extractVenues eo = [] → out.approved = false) := by
  obtain ⟨ha, -, -, -⟩ := verify_ok_spec p eo req out h
  have hiff : (((verifyIssues eo req).filter
      (fun i => decide (i.severity = Severity.critical))).length = 0) ↔
      (∀ i ∈ verifyIssues eo req, i.severity ≠ Severity.critical) := by
    rw [List.length_eq_zero, List.filter_eq_nil_iff]
    simp
  constructor
  · rw [ha]
    simp only [Bool.and_eq_true, decide_eq_true_eq]
    rw [hiff, List.length_pos]
  · intro hv
    rw [ha, hv]
    simp

/-- C1 witness: on an executor output with no results the venue extraction
is empty and `verify` rejects. -/
theorem claim_C1_witness :
    VerifierAgent.verify emptyPlan sampleEO sampleReq = Except.ok sampleVerifierOut ∧
    sampleVerifierOut.approved = false :=
  ⟨rfl, (claim_C1_approval_rule emptyPlan sampleEO sampleReq sampleVerifierOut rfl).2 rfl⟩

/-- C2 (amended): `overall_status` is `success` iff every result succeeded
(including the empty list), `failed` iff the list is non-empty and none
succeeded, and `partial_success` whenever some but not all succeeded. -/
theorem claim_C2_overall_status (env : ProviderEnv) (plan : PlannerOutput)
    (retry_steps : Option (List String)) (t : ℚ) :
    ((ExecutorAgent.execute env plan retry_steps t).overall_status = OverallStatus.success ↔
      ∀ r ∈ (ExecutorAgent.execute env plan retry_steps t).results,
        r.status = StepStatus.success) ∧
    ((ExecutorAgent.execute env plan retry_steps t).overall_status = OverallStatus.failed ↔
      ((ExecutorAgent.execute env plan retry_steps t).results ≠ [] ∧
        ∀ r ∈ (ExecutorAgent.execute env plan retry_steps t).results,
          r.status ≠ StepStatus.success)) ∧
    (((∃ r ∈ (ExecutorAgent.execute env plan retry_steps t).results,
        r.status = StepStatus.success) ∧
      (∃ r ∈ (ExecutorAgent.execute env plan retry_steps t).results,
        r.status ≠ StepStatus.success)) →
      (ExecutorAgent.execute env plan retry_steps t).overall_status =
        OverallStatus.partialSuccess) :=
  overallStatus_spec ((ExecutorAgent.execute env plan retry_steps t).results)

/-- C2 counterexample: an empty plan produces a report in which no result
has status `success`, yet `overall_status` is `success`, not `failed` —
the claimed "failed iff none succeeded" biconditional is false there. -/
theorem claim_C2_counterexample :
    ¬ (((ExecutorAgent.execute sampleEnv emptyPlan none 0).overall_status =
        OverallStatus.failed) ↔
       ∀ r ∈ (ExecutorAgent.execute sampleEnv emptyPlan none 0).results,
         r.status ≠ StepStatus.success) := by decide

/-- C2 witness: one success and one failure yield `partial_success`. -/
theorem claim_C2_witness :
    (ExecutorAgent.execute sampleEnv mixedPlan none 0).overall_status =
      OverallStatus.partialSuccess :=
  (claim_C2_overall_status sampleEnv mixedPlan none 0).2.2 (by decide)

/-- C3: the confidence score equals 1 minus the additive deduction total,
clamped to [0, 1], and therefore always lies in [0, 1]. -/
theorem claim_C3_confidence (venues : List VenueResult) (weather : Option WeatherResult)
    (issues : List ValidationIssue) :
    VerifierAgent.calculateConfidence venues weather issues =
      max 0 (min 1 (1 - specTotalDeduction venues weather issues)) ∧
    0 ≤ VerifierAgent.calculateConfidence venues weather issues ∧
    VerifierAgent.calculateConfidence venues weather issues ≤ 1 := by
  have hfun : issueDeduction = specIssueDeduction := by
    funext i
    cases hi : i.severity <;> simp [issueDeduction, specIssueDeduction, hi]
  refine ⟨?_, ?_, ?_⟩
  · unfold calculateConfidence confidenceRaw
    dsimp only
    rw [foldl_sub_deduction, hfun]
    unfold specTotalDeduction
    congr 2
    split_ifs <;> simp_all [Option.isNone_iff_eq_none] <;> ring
  · exact le_max_left 0 _
  · exact max_le (by norm_num) (min_le_left 1 _)

/-- C4 (amended): the checklist is the five base items, with the two
late-night items appended exactly when the string contains "night" or "pm"
(case-insensitively) and the integer before the first colon (0 when no
colon occurs) is ≥ 21 or ≤ 4. -/
theorem claim_C4_checklist (venue time : String) (h : Int)
    (hp : parsedHour time = Except.ok h) :
    generate_safety_checklist venue time =
      Except.ok (baseChecklist ++
        (if nightOrPm time ∧ (21 ≤ h ∨ h ≤ 4) then lateNightItems else [])) ∧
    baseChecklist.length = 5 ∧ lateNightItems.length = 2 := by
  refine ⟨?_, rfl, rfl⟩
  unfold generate_safety_checklist
  dsimp only
  by_cases hg : nightOrPm time = true
  · rw [if_pos hg, hp]
    dsimp only
    by_cases hh : (21 ≤ h ∨ h ≤ 4)
    · rw [if_pos hh, if_pos ⟨hg, hh⟩]
    · rw [if_neg hh, if_neg (fun hc => hh hc.2), List.append_nil]
  · rw [if_neg hg, if_neg (fun hc => hg hc.1), List.append_nil]

/-- C4 counterexample: for "22:00" the parsed hour is 22 ≥ 21, yet the
checklist keeps its five base entries — the late-night items are *not*
appended, because the string contains neither "night" nor "pm". -/
theorem claim_C4_counterexample :
    generate_safety_checklist "Cafe Blue" "22:00" = Except.ok baseChecklist ∧
    baseChecklist.length = 5 ∧
    parsedHour "22:00" = Except.ok 22 ∧ (21 : Int) ≤ 22 := by
  exact ⟨rfl, rfl, rfl, by norm_num⟩

/-- C4 witness: for "Saturday 11pm" (no colon, so hour 0 ≤ 4, and "pm"
present) the checklist carries the two late-night items, 7 entries. -/
theorem claim_C4_witness :
    parsedHour "Saturday 11pm" = Except.ok 0 ∧
    generate_safety_checklist "Cafe Blue" "Saturday 11pm" =
      Except.ok (baseChecklist ++ lateNightItems) ∧
    (baseChecklist ++ lateNightItems).length = 7 := by
  refine ⟨rfl, ?_, rfl⟩
  have h := (claim_C4_checklist "Cafe Blue" "Saturday 11pm" 0 rfl).1
  rw [h, if_pos ⟨rfl, Or.inr (by norm_num)⟩]

/-- C5: when the LLM path fails, `plan` answers with the deterministic
fallback plan — four fixed steps (weather at the resolved coordinates,
venue search with the preferences-derived query, images with the fixed
query, compose) and three fixed safety notes — without raising. -/
theorem claim_C5_fallback (e plan_id : String) (req : UserRequest) :
    PlannerAgent.plan (Except.error e) plan_id req =
      PlannerAgent.createFallbackPlan plan_id (req.city.getD "")
        (extract_city_coordinates (req.city.getD "")).lat
        (extract_city_coordinates (req.city.getD "")).lon
        req.budget_per_person (req.preferences.getD "") ∧
    (PlannerAgent.plan (Except.error e) plan_id req).steps =
      [ { id := "step_1", action := "get_weather",
          params := { latitude := some (extract_city_coordinates (req.city.getD "")).lat,
                      longitude := some (extract_city_coordinates (req.city.getD "")).lon },
          reasoning := some "Check weather conditions for the date" },
        { id := "step_2", action := "search_venues",
          params := { query := some (if req.preferences.getD "" ≠ "" then
                                       req.preferences.getD "" ++ " restaurant"
                                     else "restaurant"),
                      latitude := some (extract_city_coordinates (req.city.getD "")).lat,
                      longitude := some (extract_city_coordinates (req.city.getD "")).lon,
                      radius := some 3000, venue_type := some "restaurant",
                      max_results := some 5 },
          reasoning := some "Find suitable dining venues" },
        { id := "step_3", action := "get_images",
          params := { query := some "romantic restaurant dinner", count := some 3 },
          reasoning := some "Get inspirational images" },
        { id := "step_4", action := "compose_final",
          params := { include_timeline := some true, include_backup_plan := some true },
          reasoning := some "Compose final date plan" } ] ∧
    (PlannerAgent.plan (Except.error e) plan_id req).safety_notes =
      [ "Choose a public, well-lit venue",
        "Share location with a trusted friend",
        "Arrange your own transportation" ] :=
  ⟨rfl, rfl, rfl⟩

/-- C6: for any step whose action tag is outside the five-member enum, the
dispatcher returns a `failed` result with source "executor" and a message
naming the unknown action (and cannot raise — the branch is total). -/
theorem claim_C6_unknown_action (env : ProviderEnv) (step : PlanStep)
    (h : step.action ∉ ["get_weather", "search_venues", "check_events",
                        "get_images", "compose_final"]) :
    ExecutorAgent.executeStep env step =
      { step_id := step.id, action := step.action, status := StepStatus.failed,
        payload := StepPayload.empty, source := "executor",
        error_message := some ("Unknown action: " ++ step.action) } := by
  simp only [List.mem_cons, List.not_mem_nil, or_false, not_or] at h
  obtain ⟨h1, h2, h3, h4, h5⟩ := h
  unfold ExecutorAgent.executeStep
  rw [if_neg h1, if_neg h2, if_neg h3, if_neg h4, if_neg h5]

/-- C6 witness: the concrete action tag "dance". -/
theorem claim_C6_witness :
    ExecutorAgent.executeStep sampleEnv unknownStep =
      { step_id := unknownStep.id, action := unknownStep.action,
        status := StepStatus.failed, payload := StepPayload.empty,
        source := "executor",
        error_message := some ("Unknown action: " ++ unknownStep.action) } :=
  claim_C6_unknown_action sampleEnv unknownStep (by decide)

/-- C7: a final plan is present exactly when approved, the retry
recommendations are non-empty exactly when not approved, and they are the
two fixed strings per critical venues-category issue of the report's own
issue list. -/
theorem claim_C7_outputs (p : PlannerOutput) (eo : ExecutorOutput)
    (req : UserRequest) (out : VerifierOutput)
    (h : VerifierAgent.verify p eo req = Except.ok out) :
    (out.final_output.isSome = out.approved) ∧
    (out.retry_recommendations ≠ [] ↔ out.approved = false) ∧
    (out.retry_recommendations = (out.issues.filter (fun i =>
        decide (i.severity = Severity.critical ∧ i.category = "venues"))).flatMap
        (fun _ => [ "Retry venue search with broader criteria",
                    "Increase search radius to 5000m" ])) := by
  obtain ⟨ha, hiss, hfin, hrec⟩ := verify_ok_spec p eo req out h
  refine ⟨hfin, ?_, ?_⟩
  · rw [hrec]
    split_ifs with hcond
    · have htrue : out.approved = true := by
        rw [ha]
        simp only [Bool.and_eq_true, decide_eq_true_eq]
        exact hcond
      simp [htrue]
    · have hfalse : out.approved = false := by
        have hne : ¬ (out.approved = true) := by
          rw [ha]
          simp only [Bool.and_eq_true, decide_eq_true_eq]
          exact hcond
        exact Bool.eq_false_iff.mpr hne
      have hvenues : extractVenues eo = [] := by
        rcases not_and_or.mp hcond with hA | hB
        · have hne : (verifyIssues eo req).filter
              (fun i => decide (i.severity = Severity.critical)) ≠ [] :=
            fun hnil => hA (by rw [hnil]; rfl)
          obtain ⟨i, hi⟩ := List.exists_mem_of_ne_nil _ hne
          have hi' := List.mem_filter.mp hi
          exact (verifyIssues_critical eo req i hi'.1 (by simpa using hi'.2)).2
        · exact List.length_eq_zero.mp (Nat.eq_zero_of_not_pos hB)
      have hmem : noVenuesIssue ∈ (verifyIssues eo req).filter (fun i =>
          decide (i.severity = Severity.critical ∧ i.category = "venues")) :=
        List.mem_filter.mpr ⟨noVenuesIssue_mem eo req hvenues, by decide⟩
      simp only [hfalse, iff_true]
      rw [generateRetryRecommendations_eq]
      have hs : "Retry venue search with broader criteria" ∈
          ((verifyIssues eo req).filter (fun i =>
            decide (i.severity = Severity.critical ∧ i.category = "venues"))).flatMap
          (fun _ => [ "Retry venue search with broader criteria",
                      "Increase search radius to 5000m" ]) :=
        List.mem_flatMap.mpr ⟨noVenuesIssue, hmem, by simp⟩
      exact List.ne_nil_of_mem hs
  · rw [hiss, hrec]
    split_ifs with hcond
    · have hnil : (verifyIssues eo req).filter (fun i =>
          decide (i.severity = Severity.critical ∧ i.category = "venues")) = [] := by
        rw [List.filter_eq_nil_iff]
        intro i hi
        simp only [decide_eq_true_eq, not_and]
        intro hcrit _
        have hv := (verifyIssues_critical eo req i hi hcrit).2
        rw [hv] at hcond
        exact absurd hcond.2 (by simp)
      rw [hnil]
      simp
    · rw [generateRetryRecommendations_eq]

/-- C7 witness: on the empty fixtures the plan is rejected, the final plan
is absent and the retry recommendations are non-empty. -/
theorem claim_C7_witness :
    sampleVerifierOut.final_output.isSome = sampleVerifierOut.approved ∧
    sampleVerifierOut.retry_recommendations ≠ [] := by
  have h := claim_C7_outputs emptyPlan sampleEO sampleReq sampleVerifierOut rfl
  exact ⟨h.1, h.2.1.mpr rfl⟩

/-- C8: an empty retry list is falsy, so `execute` with `retry_steps = []`
behaves exactly like `execute` without a retry list: every plan step runs
in order. -/
theorem claim_C8_empty_retry (env : ProviderEnv) (plan : PlannerOutput) (t : ℚ) :
    ExecutorAgent.execute env plan (some []) t = ExecutorAgent.execute env plan none t ∧
    (ExecutorAgent.execute env plan (some []) t).results =
      plan.steps.map (ExecutorAgent.executeStep env) :=
  ⟨rfl, rfl⟩

/-- C9: when the selected step list is empty, the report has an empty
result list and overall status `success`. -/
theorem claim_C9_empty_selection (env : ProviderEnv) (plan : PlannerOutput)
    (retry_steps : Option (List String)) (t : ℚ)
    (h : ExecutorAgent.selectSteps plan.steps retry_steps = []) :
    (ExecutorAgent.execute env plan retry_steps t).results = [] ∧
    (ExecutorAgent.execute env plan retry_steps t).overall_status =
      OverallStatus.success := by
  refine ⟨?_, ?_⟩ <;> simp [ExecutorAgent.execute, h, ExecutorAgent.overallStatus]

/-- C9 witness: the empty plan. -/
theorem claim_C9_witness :
    (ExecutorAgent.execute sampleEnv emptyPlan none 0).results = [] ∧
    (ExecutorAgent.execute sampleEnv emptyPlan none 0).overall_status =
      OverallStatus.success :=
  claim_C9_empty_selection sampleEnv emptyPlan none 0 rfl

/-- C10: with a positive budget and an empty venue extraction, the
all-over-budget warning (vacuous 0 = 0 comparison) joins the critical
zero-venues issue, and the pre-clamp confidence is strictly lower than
without the budget. -/
theorem claim_C10_budget_vacuous (eo : ExecutorOutput) (req : UserRequest) (b : ℚ)
    (hb : req.budget_per_person = some b) (hpos : 0 < b)
    (hv : VerifierAgent.extractVenues eo = []) :
    VerifierAgent.allOverBudgetIssue ∈ VerifierAgent.verifyIssues eo req ∧
    VerifierAgent.noVenuesIssue ∈ VerifierAgent.verifyIssues eo req ∧
    VerifierAgent.confidenceRaw (VerifierAgent.extractVenues eo)
        (VerifierAgent.extractWeather eo.results) (VerifierAgent.verifyIssues eo req) <
      VerifierAgent.confidenceRaw (VerifierAgent.extractVenues eo)
        (VerifierAgent.extractWeather eo.results)
        (VerifierAgent.verifyIssues eo { req with budget_per_person := none }) := by
  have hbud : validateBudget [] (some b) = [allOverBudgetIssue] := by
    unfold validateBudget
    dsimp only
    rw [if_neg hpos.ne']
    simp
  have hkey : verifyIssues eo req =
      verifyIssues eo { req with budget_per_person := none } ++ [allOverBudgetIssue] := by
    unfold verifyIssues
    dsimp only
    rw [hv, hb, hbud]
    have hvv : validateVenues [] req =
        validateVenues [] { req with budget_per_person := none } := rfl
    rw [hvv]
    have hbud0 : validateBudget []
        ({ req with budget_per_person := none } : UserRequest).budget_per_person = [] := rfl
    rw [hbud0]
    simp [List.append_assoc]
  refine ⟨?_, noVenuesIssue_mem eo req hv, ?_⟩
  · rw [hkey]
    simp
  · rw [hkey]
    unfold confidenceRaw
    dsimp only
    rw [foldl_sub_deduction, foldl_sub_deduction]
    simp only [List.map_append, List.sum_append]
    have hd : (0 : ℚ) < ([allOverBudgetIssue].map issueDeduction).sum := by
      simp only [List.map_cons, List.map_nil, List.sum_cons, List.sum_nil, add_zero]
      norm_num [issueDeduction, allOverBudgetIssue]
    linarith

/-- C10 witness: empty results and a budget of 100. -/
theorem claim_C10_witness :
    VerifierAgent.allOverBudgetIssue ∈ VerifierAgent.verifyIssues sampleEO budgetReq ∧
    VerifierAgent.noVenuesIssue ∈ VerifierAgent.verifyIssues sampleEO budgetReq ∧
    VerifierAgent.confidenceRaw (VerifierAgent.extractVenues sampleEO)
        (VerifierAgent.extractWeather sampleEO.results)
        (VerifierAgent.verifyIssues sampleEO budgetReq) <
      VerifierAgent.confidenceRaw (VerifierAgent.extractVenues sampleEO)
        (VerifierAgent.extractWeather sampleEO.results)
        (VerifierAgent.verifyIssues sampleEO { budgetReq with budget_per_person := none }) :=
  claim_C10_budget_vacuous sampleEO budgetReq 100 rfl (by norm_num) rfl

end DatePlanner
